import Mathlib

/-!
# Verification of the Utah road-conditions route planner

Shallow embedding of `route_planner.py` and the coordinate-resolution part of
`api_server.py` from the `utah-road-conditions-api` repository, together with
theorems settling the frozen specification claims.

Conventions of the embedding:
* Python floats are modelled as real numbers (`ℝ`); exact rationals (`ℚ`) are
  used in the API layer, which performs no transcendental arithmetic.
* Coordinates are `(longitude, latitude)` pairs, as in the source.
* Network interactions (`requests.get` against the OSRM servers, Nominatim)
  are modelled by passing the observable outcome of each call as an explicit
  argument: every way a call can fail inside the `try` block
  (connection error, timeout, non-2xx status via `raise_for_status`,
  undecodable JSON body) raises `requests.exceptions.RequestException`,
  which the source catches and turns into "try the next server", so a single
  `failure` constructor models all of them.
* Python `dict`s holding JSON objects become structures with `Option` fields
  (`none` = key absent); `d['k']` on a possibly-absent key is modelled in the
  `Except` monad (a `KeyError` propagates), while `d.get('k')` is total.
-/

namespace UtahRoads

/-- `math.radians`: degree-to-radian conversion used by the haversine formula. -/
noncomputable def radians (x : ℝ) : ℝ := x * Real.pi / 180

/-- `RoutePlanner.haversine_distance` (route_planner.py, lines 27-40):
great-circle distance in kilometres between `(lat1, lon1)` and `(lat2, lon2)`
given in degrees, with Earth radius 6371 km. -/
noncomputable def haversine_distance (lat1 lon1 lat2 lon2 : ℝ) : ℝ :=
  let lon1r := radians lon1
  let lat1r := radians lat1
  let lon2r := radians lon2
  let lat2r := radians lat2
  let dlon := lon2r - lon1r
  let dlat := lat2r - lat1r
  let a := Real.sin (dlat / 2) ^ 2 +
    Real.cos lat1r * Real.cos lat2r * Real.sin (dlon / 2) ^ 2
  let c := 2 * Real.arcsin (Real.sqrt a)
  6371 * c

/-- `RoutePlanner.point_to_line_distance` (route_planner.py, lines 42-69):
distance in km from `point` to the segment `line_start`-`line_end`.  All three
are `(lon, lat)` pairs.  The closest point is computed by clamped Euclidean
projection in degree space, and the returned value is the haversine distance
from `point` to that closest point. -/
noncomputable def point_to_line_distance (point line_start line_end : ℝ × ℝ) : ℝ :=
  let px := point.1
  let py := point.2
  let x1 := line_start.1
  let y1 := line_start.2
  let x2 := line_end.1
  let y2 := line_end.2
  if x1 = x2 ∧ y1 = y2 then haversine_distance py px y1 x1
  else
    let dx := x2 - x1
    let dy := y2 - y1
    let t := max 0 (min 1 (((px - x1) * dx + (py - y1) * dy) / (dx * dx + dy * dy)))
    haversine_distance py px (y1 + t * dy) (x1 + t * dx)

/-- One entry of an OSRM `legs` array.  Only the keys the fallback constructor
writes (`distance`, `duration`, `steps`) are modelled; `steps` entries are
opaque to the planner, so they are kept as raw strings. -/
structure Leg where
  distance : ℝ
  duration : ℝ
  steps : List String

/-- One entry of an OSRM `routes` array: total distance (m), total duration
(s), the GeoJSON geometry as a list of `(lon, lat)` points, and the legs. -/
structure OsrmRoute where
  distance : ℝ
  duration : ℝ
  geometry : List (ℝ × ℝ)
  legs : List Leg

/-- An OSRM response body: status `code` (absent key modelled as `none`) and
the route list.  `waypoints` is carried for fidelity but never read. -/
structure OsrmResponse where
  code : Option String
  routes : List OsrmRoute
  waypoints : List (ℝ × ℝ)

/-- Observable outcome of one `requests.get` against one OSRM server, from the
caller's point of view: either some `requests.exceptions.RequestException`
(connection error, timeout, non-success HTTP status raised by
`raise_for_status`, or an undecodable JSON body) — all caught by the source
and treated identically — or a decoded response body. -/
inductive ServerOutcome where
  | failure
  | response (r : OsrmResponse)

/-- `RoutePlanner._create_simple_route` (route_planner.py, lines 119-169):
straight-line fallback route used when every OSRM server failed. -/
noncomputable def create_simple_route (origin destination : ℝ × ℝ) : OsrmResponse :=
  let distance_km := haversine_distance origin.2 origin.1 destination.2 destination.1
  let distance_m := distance_km * 1000
  let duration_s := distance_km / 90 * 3600
  let numPoints : ℕ := 10
  let coords := (List.range (numPoints + 1)).map (fun i =>
    (origin.1 + ((i : ℝ) / (numPoints : ℝ)) * (destination.1 - origin.1),
     origin.2 + ((i : ℝ) / (numPoints : ℝ)) * (destination.2 - origin.2)))
  { code := some "Ok"
    routes := [{ distance := distance_m
                 duration := duration_s
                 geometry := coords
                 legs := [{ distance := distance_m, duration := duration_s, steps := [] }] }]
    waypoints := [origin, destination] }

/-- `RoutePlanner.get_route` (route_planner.py, lines 71-117).  The source
loops over its configured servers; `outcomes` lists, in order, what each
attempted request would yield.  A `failure` outcome is caught and the next
server is tried; a decoded response is returned only if its `code` is
`"Ok"`, otherwise the loop also falls through.  When no server produced an
`"Ok"` response the straight-line fallback is returned.  The `alternatives`
argument only shapes the outgoing request parameters (clamped to 3), which
are part of the modelled server outcome, so it is unused here. -/
noncomputable def get_route (outcomes : List ServerOutcome)
    (origin destination : ℝ × ℝ) (alternatives : ℕ := 3) : OsrmResponse :=
  match outcomes with
  | [] => create_simple_route origin destination
  | .failure :: rest => get_route rest origin destination alternatives
  | .response r :: rest =>
    if r.code = some "Ok" then r else get_route rest origin destination alternatives

/-- Python `round(x, ndigits)`: rounding to a decimal multiple.  Python
rounds exact ties to even while `round` rounds them up; the two agree except
on exact multiples of `10^-ndigits / 2`, which the distances produced by the
planner never hit, and no claim depends on tie behaviour. -/
noncomputable def roundTo (ndigits : ℕ) (x : ℝ) : ℝ :=
  ((round (x * 10 ^ ndigits) : ℤ) : ℝ) / 10 ^ ndigits

/-- The `'camera'` sub-object of one classification-results entry.  Keys read
by the planner: `latitude`, `longitude`, `display_name` (all `.get`,
so absent keys are `none`). -/
structure CameraInfo where
  latitude : Option ℝ
  longitude : Option ℝ
  display_name : Option String

/-- The `'classification'` sub-object of one classification-results entry.
The matcher only reads `safety_level` from it. -/
structure ClassificationData where
  safety_level : Option String

/-- One value of the classification-results dictionary.  `status` and
`classification` are read with `.get` (total), while `camera` is read with
`cam_data['camera']` (raising `KeyError` when absent), hence all three are
`Option`s here and the bracket access is modelled in `Except`. -/
structure CamRecord where
  status : Option String
  camera : Option CameraInfo
  classification : Option ClassificationData

/-- One element of the list returned by
`RoutePlanner.find_cameras_near_route`: the dictionary built at
route_planner.py, lines 213-221. -/
structure CamMatch where
  id : String
  name : String
  latitude : ℝ
  longitude : ℝ
  distance_km : ℝ
  classification : Option ClassificationData
  safety_level : String

/-- The consecutive-point segments of a route geometry (the pairs indexed by
`i`, `i+1` in the loop at route_planner.py, lines 199-209). -/
def route_segments (coords : List (ℝ × ℝ)) : List ((ℝ × ℝ) × (ℝ × ℝ)) :=
  coords.zip coords.tail

/-- `self.route_buffer_km` (route_planner.py, line 25). -/
noncomputable def route_buffer_km : ℝ := 0.5

/-- The `min_distance` accumulator of `find_cameras_near_route`: minimum of
`point_to_line_distance` over all consecutive segments of the geometry.
The source initialises it to `float('inf')`; `none` models "no segment, so
still infinite". -/
noncomputable def min_segment_distance (coords : List (ℝ × ℝ)) (lon lat : ℝ) : Option ℝ :=
  ((route_segments coords).map
    (fun seg => point_to_line_distance (lon, lat) seg.1 seg.2)).min?

/-- The safety level reported for a match:
`cam_data.get('classification', {}).get('safety_level', 'unknown')`. -/
def record_safety_level (rec : CamRecord) : String :=
  match rec.classification with
  | none => "unknown"
  | some c => c.safety_level.getD "unknown"

/-- The body of the `for cam_id, cam_data in cameras.items()` loop of
`find_cameras_near_route` (route_planner.py, lines 185-221), accumulating the
matches in iteration order (Python dict order = list order here).  Records
whose `status` is not `'success'` are skipped before anything else is read;
after that the source evaluates `cam_data['camera']`, which raises `KeyError`
when the key is absent — modelled as `Except.error`. -/
noncomputable def collect_nearby_cameras (coords : List (ℝ × ℝ)) :
    List (String × CamRecord) → Except String (List CamMatch)
  | [] => .ok []
  | (cam_id, cam_data) :: rest =>
    if cam_data.status ≠ some "success" then collect_nearby_cameras coords rest
    else
      match cam_data.camera with
      | none => .error "KeyError: camera"
      | some info =>
        match info.latitude, info.longitude with
        | some cam_lat, some cam_lon =>
          (match min_segment_distance coords cam_lon cam_lat with
           | some min_distance =>
             if min_distance ≤ route_buffer_km then
               (collect_nearby_cameras coords rest).map (fun tail =>
                 { id := cam_id
                   name := info.display_name.getD "Unknown"
                   latitude := cam_lat
                   longitude := cam_lon
                   distance_km := roundTo 3 min_distance
                   classification := cam_data.classification
                   safety_level := record_safety_level cam_data } :: tail)
             else collect_nearby_cameras coords rest
           | none => collect_nearby_cameras coords rest)
        | _, _ => collect_nearby_cameras coords rest

/-- The comparison used by `nearby_cameras.sort(key=lambda x: x['distance_km'])`. -/
noncomputable def byDistance (a b : CamMatch) : Bool :=
  decide (a.distance_km ≤ b.distance_km)

/-- `RoutePlanner.find_cameras_near_route` (route_planner.py, lines 171-225):
collect the matches, then stably sort them ascending by `distance_km`. -/
noncomputable def find_cameras_near_route (coords : List (ℝ × ℝ))
    (cameras : List (String × CamRecord)) : Except String (List CamMatch) :=
  (collect_nearby_cameras coords cameras).map (fun l => l.mergeSort byDistance)

/-- The dictionary returned by `RoutePlanner.score_route_safety`
(route_planner.py, lines 227-275).  The Python `score` is integer-valued
(counts scaled by integer weights, clamped to `[0, 100]`; `round(score, 1)`
is the identity on it), so it is an `ℤ` here. -/
structure Safety where
  score : ℤ
  rating : String
  hazard_count : ℕ
  caution_count : ℕ
  safe_count : ℕ
  total_cameras : ℕ

/-- `RoutePlanner.score_route_safety` (route_planner.py, lines 227-275).
The caution threshold `caution_count > total * 0.3` is evaluated by Python in
binary floating point; for every count below `2^50` that comparison agrees
with the exact rational one used here (the accumulated error of
`total * float(0.3)` is less than the distance from `total * 3/10` to the
nearest distinct float, and the integer `caution_count` is never within that
error of `total * 3/10` unless it equals it exactly, in which case both
comparisons are false). -/
def score_route_safety (cameras : List CamMatch) : Safety :=
  match cameras with
  | [] =>
    { score := 100, rating := "unknown", hazard_count := 0, caution_count := 0
      safe_count := 0, total_cameras := 0 }
  | _ =>
    let hazard_count := cameras.countP (fun c => c.safety_level == "hazardous")
    let caution_count := cameras.countP (fun c => c.safety_level == "caution")
    let safe_count := cameras.countP (fun c => c.safety_level == "safe")
    let total := cameras.length
    let score : ℤ := 100 - hazard_count * 30 - caution_count * 10 + safe_count * 5
    let score := max 0 (min 100 score)
    let rating :=
      if hazard_count > 0 then "hazardous"
      else if (caution_count : ℚ) > (total : ℚ) * (3 / 10) then "caution"
      else if safe_count > 0 then "safe"
      else "unknown"
    { score := score, rating := rating, hazard_count := hazard_count
      caution_count := caution_count, safe_count := safe_count
      total_cameras := total }

/-- The safety summary exactly as the claim words it (spec-side definition,
to be compared with `score_route_safety` from the source): for a non-empty
match list, `H`, `C`, `S` count matches with level `hazardous`, `caution`,
`safe` (anything else excluded from the counts but included in the total),
`score = clamp(100 - 30H - 10C + 5S, 0, 100)`, and the rating is decided in
priority order `hazardous` / `caution` / `safe` / `unknown`; for the empty
list, score 100, rating `unknown`, all counts zero. -/
def spec_score_route_safety (cameras : List CamMatch) : Safety :=
  match cameras with
  | [] =>
    { score := 100, rating := "unknown", hazard_count := 0, caution_count := 0
      safe_count := 0, total_cameras := 0 }
  | _ =>
    let total := cameras.length
    let hCount := cameras.countP (fun c => c.safety_level == "hazardous")
    let cCount := cameras.countP (fun c => c.safety_level == "caution")
    let sCount := cameras.countP (fun c => c.safety_level == "safe")
    let score : ℤ := max 0 (min 100 (100 - 30 * hCount - 10 * cCount + 5 * sCount))
    let rating :=
      if 0 < hCount then "hazardous"
      else if (cCount : ℚ) > (3 / 10) * (total : ℚ) then "caution"
      else if 0 < sCount then "safe"
      else "unknown"
    { score := score, rating := rating, hazard_count := hCount
      caution_count := cCount, safe_count := sCount, total_cameras := total }

/-- Proof-side description of what one dataset entry contributes to
`collect_nearby_cameras`: `none` when the entry is skipped, `some m` when it
yields the match `m`.  (Entries with status `success` but no camera block
make the collector fail instead; `match_of` is only meaningful for runs that
return normally.) -/
noncomputable def match_of (coords : List (ℝ × ℝ)) (cam_id : String)
    (cam_data : CamRecord) : Option CamMatch :=
  if cam_data.status ≠ some "success" then none
  else
    match cam_data.camera with
    | none => none
    | some info =>
      match info.latitude, info.longitude with
      | some cam_lat, some cam_lon =>
        (match min_segment_distance coords cam_lon cam_lat with
         | some min_distance =>
           if min_distance ≤ route_buffer_km then
             some
               { id := cam_id
                 name := info.display_name.getD "Unknown"
                 latitude := cam_lat
                 longitude := cam_lon
                 distance_km := roundTo 3 min_distance
                 classification := cam_data.classification
                 safety_level := record_safety_level cam_data }
           else none
         | none => none)
      | _, _ => none

/-- One element of the `routes` list of a route plan: the dictionary built at
route_planner.py, lines 329-339. -/
structure AnalyzedRoute where
  route_index : ℕ
  is_recommended : Bool
  distance_km : ℝ
  duration_min : ℝ
  safety : Safety
  cameras_monitored : ℕ
  hazardous_locations : List CamMatch
  geometry : List (ℝ × ℝ)
  legs : List Leg

/-- The successful result dictionary of `RoutePlanner.plan_route`
(route_planner.py, lines 348-355).  `timestamp` (wall-clock) and the constant
`note` string carry no verifiable content and are omitted. -/
structure Plan where
  origin : ℝ × ℝ
  destination : ℝ × ℝ
  routes : List AnalyzedRoute
  recommended_route : Option AnalyzedRoute

/-- The body of the `for idx, route in enumerate(...)` loop of `plan_route`
(route_planner.py, lines 313-339): analyze the routes in order, numbering
them from `idx`.  A `KeyError` raised by `find_cameras_near_route` aborts the
whole analysis, as an uncaught exception does in the source. -/
noncomputable def analyze_routes (cameras : List (String × CamRecord)) :
    ℕ → List OsrmRoute → Except String (List AnalyzedRoute)
  | _, [] => .ok []
  | idx, route :: rest =>
    match find_cameras_near_route route.geometry cameras with
    | .error e => .error e
    | .ok nearby =>
      match analyze_routes cameras (idx + 1) rest with
      | .error e => .error e
      | .ok tail =>
        .ok
          ({ route_index := idx
             is_recommended := false  -- will be set after the comparison
             distance_km := roundTo 2 (route.distance / 1000)
             duration_min := roundTo 1 (route.duration / 60)
             safety := score_route_safety nearby
             cameras_monitored := nearby.length
             hazardous_locations :=
               (nearby.filter (fun c => c.safety_level == "hazardous")).take 5
             geometry := route.geometry
             legs := route.legs } :: tail)

/-- The comparison realised by
`analyzed_routes.sort(key=lambda x: x['safety']['score'], reverse=True)`:
CPython's sort with `reverse=True` is a stable descending sort by the key. -/
def byScoreDesc (a b : AnalyzedRoute) : Bool :=
  decide (b.safety.score ≤ a.safety.score)

/-- The in-place mutation `analyzed_routes[0]['is_recommended'] = True`
(route_planner.py, lines 345-346), applied after sorting. -/
def mark_recommended : List AnalyzedRoute → List AnalyzedRoute
  | [] => []
  | first :: rest => { first with is_recommended := true } :: rest

/-- The tail of `plan_route` after a successful analysis (route_planner.py,
lines 341-355): sort by safety score descending (stable), mark the first
route recommended, and assemble the result dictionary. -/
noncomputable def build_plan (origin destination : ℝ × ℝ)
    (analyzed_routes : List AnalyzedRoute) : Plan :=
  let final := mark_recommended (analyzed_routes.mergeSort byScoreDesc)
  { origin := origin
    destination := destination
    routes := final
    recommended_route := final.head? }

/-- `RoutePlanner.plan_route` (route_planner.py, lines 277-355).
`results_file_exists` models `self.results_file.exists()` and `cameras` the
JSON it holds; `outcomes` models the OSRM servers as in `get_route`.
Error outcomes: the two error dictionaries the source returns ("Camera data
not available", "Routing failed") and the `KeyError` that
`find_cameras_near_route` can raise (propagating out of the analysis loop)
are all collapsed into `Except.error` with distinguishing messages. -/
noncomputable def plan_route (results_file_exists : Bool)
    (cameras : List (String × CamRecord)) (outcomes : List ServerOutcome)
    (origin destination : ℝ × ℝ) (alternatives : ℕ := 3) :
    Except String Plan :=
  if ¬results_file_exists then .error "Camera data not available"
  else
    let osrm_response := get_route outcomes origin destination alternatives
    if osrm_response.code ≠ some "Ok" then .error "Routing failed"
    else
      (analyze_routes cameras 0 osrm_response.routes).map
        (build_plan origin destination)

/-! ## The coordinate resolver of the API layer (`api_server.py`)

The API layer does exact string handling plus Python `float()` parsing and a
Nominatim geocoding call.  `float()` is a Python builtin, not repository
code, so it enters the model as an explicit `parseFloat` oracle returning the
parsed value (as an exact rational) or `none` for a `ValueError`; the
Nominatim call enters as the observable `GeoOutcome` of the single request
`geocode_address` performs. -/

/-- One entry of a Nominatim response array.  The source reads
`float(results[0]['lon'])` / `float(results[0]['lat'])` inside its
catch-all `try`, so an absent key or unparseable value (modelled `none`)
makes `geocode_address` return `None`. -/
structure GeoResult where
  lon : Option ℚ
  lat : Option ℚ

/-- Observable outcome of the single Nominatim request of
`geocode_address`: any raised exception (network, HTTP status, JSON), or the
decoded result array. -/
inductive GeoOutcome where
  | failure
  | ok (results : List GeoResult)

/-- `geocode_address` (route_planner.py, lines 358-390): first result's
`(lon, lat)` if present and parseable, otherwise `None` (every exception is
caught and becomes `None`). -/
def geocode_address (outcome : GeoOutcome) : Option (ℚ × ℚ) :=
  match outcome with
  | .failure => none
  | .ok [] => none
  | .ok (r :: _) =>
    match r.lon, r.lat with
    | some lo, some la => some (lo, la)
    | _, _ => none

/-- Auxiliary recursion for `py_split`, carrying the reversed current
chunk. -/
def py_split_aux (sep : Char) : List Char → List Char → List (List Char)
  | [], acc => [acc.reverse]
  | c :: cs, acc =>
    if c = sep then acc.reverse :: py_split_aux sep cs []
    else py_split_aux sep cs (c :: acc)

/-- Python `str.split(sep)` for a one-character separator, over strings
modelled as code-point lists (e.g. `split(',')` of `"a,,b"` is
`["a", "", "b"]` and of `""` is `[""]`). -/
def py_split (sep : Char) (s : List Char) : List (List Char) :=
  py_split_aux sep s []

/-- Result of resolving one origin/destination token in the `/api/route`
handler: either a `(lon, lat)` pair, or the 400 response body
(`error`, `message`) returned to the client. -/
inductive ResolveResult where
  | ok (lonlat : ℚ × ℚ)
  | err (error message : List Char)

/-- The geocoding fall-through of the token resolver (the `else` and
`except ValueError` branches of api_server.py, lines 183-198): geocode the
whole token; `None` becomes the 400 error naming the token. -/
def geocode_fallback (geo : GeoOutcome) (tok : List Char) : ResolveResult :=
  match geocode_address geo with
  | some c => .ok c
  | none =>
    .err "Could not geocode origin".toList
      ("Address '".toList ++ tok ++ "' not found".toList)

/-- The origin-token resolution of the `/api/route` handler
(api_server.py, lines 177-198; the destination branch at lines 200-221 is
textually identical up to the word "origin" in the error body): split the
token on `','`; with exactly two parts that both `float`-parse, use them as a
`(lon, lat)` literal; otherwise geocode the whole token.  Strings are
code-point lists; Python's builtin `float()` parser is the external oracle
`parseFloat` (`none` = `ValueError`). -/
def resolve_location_token (parseFloat : List Char → Option ℚ) (geo : GeoOutcome)
    (tok : List Char) : ResolveResult :=
  match py_split ',' tok with
  | [p0, p1] =>
    match parseFloat p0, parseFloat p1 with
    | some a, some b => .ok (a, b)
    | _, _ => geocode_fallback geo tok
  | _ => geocode_fallback geo tok

/-! ## Helper lemmas -/

/-- When every server outcome is a failure, `get_route` returns the
straight-line fallback. -/
theorem get_route_all_failure (outcomes : List ServerOutcome) (o d : ℝ × ℝ)
    (a : ℕ) (hall : ∀ oc ∈ outcomes, oc = ServerOutcome.failure) :
    get_route outcomes o d a = create_simple_route o d := by
  induction outcomes with
  | nil => rfl
  | cons oc rest ih =>
    have hoc : oc = ServerOutcome.failure := hall oc (List.mem_cons_self oc rest)
    subst hoc
    have := ih (fun x hx => hall x (List.mem_cons_of_mem _ hx))
    simpa [get_route] using this

/-- The fallback response always carries `code = "Ok"` and exactly one
route. -/
theorem create_simple_route_shape (o d : ℝ × ℝ) :
    (create_simple_route o d).code = some "Ok" ∧
      (create_simple_route o d).routes.length = 1 := ⟨rfl, rfl⟩

/-! ## C1: `get_route` totality and route count -/

/-- C1 (corrected), counterexample: a backend that answers with status
`"Ok"` and an *empty* route list is returned as-is — the source only checks
`result.get('code') == 'Ok'` and never that the route list is non-empty — so
`get_route`'s result can contain zero candidate routes, contradicting the
claim that it always contains at least one. -/
theorem get_route_empty_routes_cex :
    (get_route [ServerOutcome.response ⟨some "Ok", [], []⟩] (0, 0) (0, 0) 3).routes = [] := by
  rfl

/-- C1 (amended): for every sequence of backend outcomes `get_route` returns
normally (all transport errors are caught; the embedding is a total function
into responses), and its result always reports `code = "Ok"`.  If no backend
produced a response with code `"Ok"`, the result is the synthesized fallback
and contains exactly one route; however a backend response with code `"Ok"`
and an empty route list is returned unchanged, so in that one case the
result contains zero routes. -/
theorem get_route_total_amended (outcomes : List ServerOutcome)
    (o d : ℝ × ℝ) (a : ℕ) :
    (get_route outcomes o d a).code = some "Ok" ∧
      ((∀ r : OsrmResponse, ServerOutcome.response r ∈ outcomes → r.code ≠ some "Ok") →
        (get_route outcomes o d a).routes.length = 1) := by
  induction outcomes with
  | nil => exact ⟨rfl, fun _ => rfl⟩
  | cons oc rest ih =>
    cases oc with
    | failure =>
      refine ⟨by simpa [get_route] using ih.1, fun hall => ?_⟩
      simpa [get_route] using ih.2 (fun r hr => hall r (List.mem_cons_of_mem _ hr))
    | response r =>
      by_cases h : r.code = some "Ok"
      · refine ⟨by simp [get_route, h], fun hall => ?_⟩
        exact absurd h (hall r (List.mem_cons_self _ _))
      · refine ⟨by simpa [get_route, h] using ih.1, fun hall => ?_⟩
        simpa [get_route, h] using ih.2 (fun r' hr' => hall r' (List.mem_cons_of_mem _ hr'))

/-- Witness for `get_route_total_amended` at a concrete outcome sequence
(both servers unreachable). -/
theorem get_route_total_amended_witness :
    (get_route [ServerOutcome.failure, ServerOutcome.failure] (0, 0) (1, 1) 3).code = some "Ok" ∧
      (get_route [ServerOutcome.failure, ServerOutcome.failure] (0, 0) (1, 1) 3).routes.length = 1 := by
  have h := get_route_total_amended
    [ServerOutcome.failure, ServerOutcome.failure] (0, 0) (1, 1) 3
  refine ⟨h.1, h.2 ?_⟩
  intro r hr
  simp only [List.mem_cons, List.not_mem_nil, or_false] at hr
  rcases hr with hr | hr <;> exact absurd hr (by simp)

/-! ## C2: shape of the synthesized fallback route -/

/-- C2 (confirmed): when every backend endpoint fails, `get_route` returns
the synthesized fallback, which consists of exactly one route whose distance
is the haversine great-circle distance (Earth radius 6371 km) between origin
and destination converted to metres, whose duration is
`(distance_km / 90) * 3600` seconds, and whose geometry is the 11 points at
`t = 0, 0.1, …, 1.0` linearly interpolated in longitude and latitude between
origin and destination. -/
theorem fallback_route_spec (outcomes : List ServerOutcome) (o d : ℝ × ℝ)
    (a : ℕ) (hall : ∀ oc ∈ outcomes, oc = ServerOutcome.failure) :
    (get_route outcomes o d a).routes.map
        (fun r => (r.distance, r.duration, r.geometry)) =
      [(haversine_distance o.2 o.1 d.2 d.1 * 1000,
        haversine_distance o.2 o.1 d.2 d.1 / 90 * 3600,
        (List.range 11).map (fun i =>
          (o.1 + ((i : ℝ) / 10) * (d.1 - o.1),
           o.2 + ((i : ℝ) / 10) * (d.2 - o.2))))] := by
  rw [get_route_all_failure outcomes o d a hall]
  simp only [create_simple_route, List.map_cons, List.map_nil]
  norm_num

/-- Witness for `fallback_route_spec`: the spec's scenario — Salt Lake City
to Park City with both routing servers unreachable. -/
theorem fallback_route_spec_witness :
    (get_route [ServerOutcome.failure, ServerOutcome.failure]
        (-111.8910, 40.7608) (-111.4980, 40.6461) 3).routes.map
        (fun r => (r.distance, r.duration, r.geometry)) =
      [(haversine_distance 40.7608 (-111.8910) 40.6461 (-111.4980) * 1000,
        haversine_distance 40.7608 (-111.8910) 40.6461 (-111.4980) / 90 * 3600,
        (List.range 11).map (fun i =>
          ((-111.8910 : ℝ) + ((i : ℝ) / 10) * ((-111.4980) - (-111.8910)),
           (40.7608 : ℝ) + ((i : ℝ) / 10) * (40.6461 - 40.7608))))] := by
  exact fallback_route_spec [ServerOutcome.failure, ServerOutcome.failure]
    (-111.8910, 40.7608) (-111.4980, 40.6461) 3
    (by intro oc hoc
        simp only [List.mem_cons, List.not_mem_nil, or_false] at hoc
        rcases hoc with rfl | rfl <;> rfl)

/-! ## C8: legs of the synthesized fallback route -/

/-- C8 (corrected), counterexample: the synthesized fallback route does
*not* have an empty legs sequence — the source builds it with exactly one
leg (route_planner.py, lines 159-163). -/
theorem fallback_legs_nonempty_cex :
    (get_route [ServerOutcome.failure, ServerOutcome.failure] (0, 0) (3, 4) 3).routes.map
      (fun r => r.legs.length) = [1] := by
  rfl

/-- C8 (amended): when every backend endpoint fails, the single synthesized
fallback route has exactly one leg, whose distance and duration equal the
route's own and whose `steps` list is empty. -/
theorem fallback_legs_amended (outcomes : List ServerOutcome) (o d : ℝ × ℝ)
    (a : ℕ) (hall : ∀ oc ∈ outcomes, oc = ServerOutcome.failure) :
    (get_route outcomes o d a).routes.map
        (fun r => r.legs.map (fun leg => (leg.distance, leg.duration, leg.steps))) =
      (get_route outcomes o d a).routes.map
        (fun r => [(r.distance, r.duration, ([] : List String))]) := by
  rw [get_route_all_failure outcomes o d a hall]
  rfl

/-- Witness for `fallback_legs_amended` at a concrete outcome sequence. -/
theorem fallback_legs_amended_witness :
    (get_route [ServerOutcome.failure] (2, 5) (7, 1) 2).routes.map
        (fun r => r.legs.map (fun leg => (leg.distance, leg.duration, leg.steps))) =
      (get_route [ServerOutcome.failure] (2, 5) (7, 1) 2).routes.map
        (fun r => [(r.distance, r.duration, ([] : List String))]) := by
  exact fallback_legs_amended [ServerOutcome.failure] (2, 5) (7, 1) 2
    (by intro oc hoc
        simp only [List.mem_cons, List.not_mem_nil, or_false] at hoc
        rcases hoc with rfl
        rfl)

/-! ## C3: route safety scoring -/

/-- C3 (confirmed): `score_route_safety` computes exactly the summary the
claim describes, on every input list. -/
theorem score_route_safety_spec (cameras : List CamMatch) :
    score_route_safety cameras = spec_score_route_safety cameras := by
  cases cameras with
  | nil => rfl
  | cons c cs =>
    simp only [score_route_safety, spec_score_route_safety]
    have hscore : (100 : ℤ) - (c :: cs).countP (fun c => c.safety_level == "hazardous") * 30
        - (c :: cs).countP (fun c => c.safety_level == "caution") * 10
        + (c :: cs).countP (fun c => c.safety_level == "safe") * 5 =
        100 - 30 * (c :: cs).countP (fun c => c.safety_level == "hazardous")
        - 10 * (c :: cs).countP (fun c => c.safety_level == "caution")
        + 5 * (c :: cs).countP (fun c => c.safety_level == "safe") := by ring
    rw [hscore, mul_comm ((((c :: cs).length : ℚ))) (3 / 10)]

/-! ## C9: origin/destination token resolution -/

/-- C9 (confirmed): splitting the token on `','` into exactly two parts that
both `float`-parse yields the literal `(lon, lat)` pair, with no range
validation (the parsed values are arbitrary) and without consulting the
geocoding backend (the result is independent of the geocoder's outcome);
otherwise — wrong part count or failed numeric parse — the whole token is
geocoded, a geocoding hit is used as the coordinate pair (the hit being the
first result's `(lon, lat)`, third conjunct), and a geocoding miss produces
the unresolvable-location error whose message names the offending token. -/
theorem resolve_location_token_spec (parseFloat : List Char → Option ℚ)
    (geo : GeoOutcome) (tok p0 p1 : List Char) (a b : ℚ) :
    (py_split ',' tok = [p0, p1] → parseFloat p0 = some a → parseFloat p1 = some b →
      resolve_location_token parseFloat geo tok = .ok (a, b) ∧
        ∀ geo', resolve_location_token parseFloat geo' tok =
          resolve_location_token parseFloat geo tok) ∧
    ((∀ q0 q1, py_split ',' tok = [q0, q1] → parseFloat q0 = none ∨ parseFloat q1 = none) →
      (∀ c, geocode_address geo = some c →
        resolve_location_token parseFloat geo tok = .ok c) ∧
      (geocode_address geo = none →
        resolve_location_token parseFloat geo tok =
          .err "Could not geocode origin".toList
            ("Address '".toList ++ tok ++ "' not found".toList))) ∧
    (∀ r rs lo la, geo = GeoOutcome.ok (r :: rs) → r.lon = some lo → r.lat = some la →
      geocode_address geo = some (lo, la)) := by
  refine ⟨?_, ?_, ?_⟩
  · intro hsplit h0 h1
    constructor
    · simp [resolve_location_token, hsplit, h0, h1]
    · intro geo'
      simp [resolve_location_token, hsplit, h0, h1]
  · intro hfail
    have hres : resolve_location_token parseFloat geo tok = geocode_fallback geo tok := by
      unfold resolve_location_token
      rcases hs : py_split ',' tok with - | ⟨q0, qs⟩
      · rfl
      · rcases qs with - | ⟨q1, qs'⟩
        · rfl
        · rcases qs' with - | ⟨q2, qs''⟩
          · rcases hfail q0 q1 hs with hn | hn <;>
              rcases hp0 : parseFloat q0 with - | x <;>
              rcases hp1 : parseFloat q1 with - | y <;>
              simp_all
          · rfl
    constructor
    · intro c hc
      rw [hres]
      simp [geocode_fallback, hc]
    · intro hc
      rw [hres]
      simp [geocode_fallback, hc]
  · intro r rs lo la hg h0 h1
    subst hg
    simp [geocode_address, h0, h1]

/-- Witness for `resolve_location_token_spec`, exercising all three parts at
concrete inputs: the literal token `"-111.89,40.76"` resolves to the literal
pair independently of the geocoder, while the address token
`"Park City, UT"` (whose second comma-part does not parse) falls through to
the geocoder, whose first result is used on a hit and whose miss yields the
error naming the token. -/
theorem resolve_location_token_spec_witness :
    (resolve_location_token
        (fun s => if s = "-111.89".toList then some (-11189 / 100)
          else if s = "40.76".toList then some (4076 / 100) else none)
        GeoOutcome.failure "-111.89,40.76".toList = .ok (-11189 / 100, 4076 / 100)) ∧
    (resolve_location_token (fun _ => none)
        (GeoOutcome.ok [⟨some (-111/1), some (41/1)⟩]) "Park City, UT".toList =
      .ok (-111/1, 41/1)) ∧
    (resolve_location_token (fun _ => none) GeoOutcome.failure "Park City, UT".toList =
      .err "Could not geocode origin".toList
        ("Address '".toList ++ "Park City, UT".toList ++ "' not found".toList)) := by
  refine ⟨?_, ?_, ?_⟩
  · exact ((resolve_location_token_spec
        (fun s => if s = "-111.89".toList then some (-11189 / 100)
          else if s = "40.76".toList then some (4076 / 100) else none)
        GeoOutcome.failure "-111.89,40.76".toList "-111.89".toList "40.76".toList
        (-11189 / 100) (4076 / 100)).1 (by decide) rfl rfl).1
  · refine ((resolve_location_token_spec (fun _ => none)
        (GeoOutcome.ok [⟨some (-111/1), some (41/1)⟩]) "Park City, UT".toList
        [] [] 0 0).2.1 (fun q0 q1 _ => Or.inl rfl)).1 (-111/1, 41/1) ?_
    exact ((resolve_location_token_spec (fun _ => none)
        (GeoOutcome.ok [⟨some (-111/1), some (41/1)⟩]) "Park City, UT".toList
        [] [] 0 0).2.2) ⟨some (-111/1), some (41/1)⟩ [] (-111/1) (41/1) rfl rfl rfl
  · exact ((resolve_location_token_spec (fun _ => none) GeoOutcome.failure
        "Park City, UT".toList [] [] 0 0).2.1 (fun q0 q1 _ => Or.inl rfl)).2 rfl

/-! ## C6: point-to-segment distance versus endpoint distances -/

/-- Haversine from `(0°, 180°)` to `(0°, 0°)` is half the Earth's
circumference. -/
theorem haversine_antipodal_eval : haversine_distance 0 180 0 0 = 6371 * Real.pi := by
  simp only [haversine_distance, radians]
  have h1 : ((0 : ℝ) * Real.pi / 180 - 180 * Real.pi / 180) / 2 = -(Real.pi / 2) := by ring
  have h2 : ((0 : ℝ) * Real.pi / 180 - 0 * Real.pi / 180) / 2 = 0 := by ring
  have h3 : (0 : ℝ) * Real.pi / 180 = 0 := by ring
  rw [h1, h2, h3, Real.sin_zero, Real.cos_zero, Real.sin_neg, Real.sin_pi_div_two]
  norm_num
  ring

/-- Haversine from `(0°, 180°)` to `(0°, -180°)` is zero: the two longitudes
denote the same meridian, and the formula's `sin(dlon/2)` vanishes at
`dlon = -2π`. -/
theorem haversine_wraparound_eval : haversine_distance 0 180 0 (-180) = 0 := by
  simp only [haversine_distance, radians]
  have h1 : ((-180 : ℝ) * Real.pi / 180 - 180 * Real.pi / 180) / 2 = -Real.pi := by ring
  have h2 : ((0 : ℝ) * Real.pi / 180 - 0 * Real.pi / 180) / 2 = 0 := by ring
  rw [h1, h2, Real.sin_zero, Real.sin_neg, Real.sin_pi]
  norm_num

/-- On the segment from `(-180°, 0°)` to `(0°, 0°)`, the planar projection of
the point `(180°, 0°)` clamps to `t = 1`, so the code measures the haversine
distance to the endpoint `(0°, 0°)`. -/
theorem point_to_line_distance_wraparound_eval :
    point_to_line_distance (180, 0) (-180, 0) (0, 0) = haversine_distance 0 180 0 0 := by
  simp only [point_to_line_distance]
  rw [if_neg (by norm_num)]
  norm_num

/-- C6 (corrected), counterexample: for the point `p = (180°, 0°)` and the
segment from `s = (-180°, 0°)` to `e = (0°, 0°)` — all coordinates within
the conventional ranges — the returned point-to-segment distance
(`6371·π` km, measured to `e`) strictly exceeds the haversine distance from
`p` to `s` (`0` km: `±180°` is the same meridian), refuting
`point_to_line_distance(p,s,e) ≤ min(d(p,s), d(p,e))`.  The planar
projection in degree space does not commute with the spherical metric. -/
theorem point_to_line_distance_min_cex :
    ¬ point_to_line_distance (180, 0) (-180, 0) (0, 0) ≤
        min (haversine_distance 0 180 0 (-180)) (haversine_distance 0 180 0 0) := by
  rw [point_to_line_distance_wraparound_eval, haversine_antipodal_eval,
    haversine_wraparound_eval]
  rw [min_eq_left (by positivity)]
  push_neg
  positivity

/-- The clamped-projection point minimises the planar (degree-space) squared
distance over the segment, in particular against both endpoints. -/
theorem clamp_quadratic (a1 a2 dx dy : ℝ) (hA : 0 < dx * dx + dy * dy) :
    ((a1 - max 0 (min 1 ((a1 * dx + a2 * dy) / (dx * dx + dy * dy))) * dx) ^ 2 +
        (a2 - max 0 (min 1 ((a1 * dx + a2 * dy) / (dx * dx + dy * dy))) * dy) ^ 2 ≤
      a1 ^ 2 + a2 ^ 2) ∧
    ((a1 - max 0 (min 1 ((a1 * dx + a2 * dy) / (dx * dx + dy * dy))) * dx) ^ 2 +
        (a2 - max 0 (min 1 ((a1 * dx + a2 * dy) / (dx * dx + dy * dy))) * dy) ^ 2 ≤
      (a1 - dx) ^ 2 + (a2 - dy) ^ 2) := by
  have hXnn : (0 : ℝ) ≤ dx * dx + dy * dy := hA.le
  have huA : ((a1 * dx + a2 * dy) / (dx * dx + dy * dy)) * (dx * dx + dy * dy) =
      a1 * dx + a2 * dy := div_mul_cancel₀ _ (ne_of_gt hA)
  rcases le_total ((a1 * dx + a2 * dy) / (dx * dx + dy * dy)) 0 with hu | hu
  · have ht : max 0 (min 1 ((a1 * dx + a2 * dy) / (dx * dx + dy * dy))) = 0 := by
      rw [min_eq_right (hu.trans zero_le_one), max_eq_left hu]
    rw [ht]
    have hB0 : a1 * dx + a2 * dy ≤ 0 := by
      rw [← huA]
      exact mul_nonpos_of_nonpos_of_nonneg hu hXnn
    constructor
    · norm_num
    · nlinarith [hB0, hA]
  · rcases le_total 1 ((a1 * dx + a2 * dy) / (dx * dx + dy * dy)) with hu1 | hu1
    · have ht : max 0 (min 1 ((a1 * dx + a2 * dy) / (dx * dx + dy * dy))) = 1 := by
        rw [min_eq_left hu1, max_eq_right zero_le_one]
      rw [ht]
      have hAB : dx * dx + dy * dy ≤ a1 * dx + a2 * dy := by
        rw [← huA]
        nlinarith [mul_le_mul_of_nonneg_right hu1 hXnn]
      constructor
      · nlinarith [hAB, hA]
      · norm_num
    · have ht : max 0 (min 1 ((a1 * dx + a2 * dy) / (dx * dx + dy * dy))) =
          (a1 * dx + a2 * dy) / (dx * dx + dy * dy) := by
        rw [min_eq_right hu1, max_eq_right hu]
      rw [ht]
      set u := (a1 * dx + a2 * dy) / (dx * dx + dy * dy) with hudef
      have hsq : (0 : ℝ) ≤ u * u * (dx * dx + dy * dy) :=
        mul_nonneg (mul_self_nonneg u) hXnn
      have huA2 : u * (u * (dx * dx + dy * dy)) = u * (a1 * dx + a2 * dy) := by
        rw [huA]
      constructor
      · nlinarith [huA, huA2, hsq]
      · nlinarith [huA, huA2, mul_nonneg (sq_nonneg (1 - u)) hXnn]

/-- C6 (amended): `point_to_line_distance(p, s, e)` is the haversine
distance from `p` to the point of the segment selected by clamped planar
projection — a point `s + t·(e − s)` with `t ∈ [0, 1]` whose *planar*
degree-space squared distance to `p` never exceeds that of either endpoint.
The claimed inequality for the *haversine* distances themselves is refuted
by `point_to_line_distance_min_cex`: the planar projection is performed in
raw degree coordinates, which the spherical metric does not respect. -/
theorem point_to_line_distance_amended (p s e : ℝ × ℝ) :
    ∃ t : ℝ, 0 ≤ t ∧ t ≤ 1 ∧
      point_to_line_distance p s e =
        haversine_distance p.2 p.1 (s.2 + t * (e.2 - s.2)) (s.1 + t * (e.1 - s.1)) ∧
      (p.1 - (s.1 + t * (e.1 - s.1))) ^ 2 + (p.2 - (s.2 + t * (e.2 - s.2))) ^ 2 ≤
        (p.1 - s.1) ^ 2 + (p.2 - s.2) ^ 2 ∧
      (p.1 - (s.1 + t * (e.1 - s.1))) ^ 2 + (p.2 - (s.2 + t * (e.2 - s.2))) ^ 2 ≤
        (p.1 - e.1) ^ 2 + (p.2 - e.2) ^ 2 := by
  by_cases h : s.1 = e.1 ∧ s.2 = e.2
  · refine ⟨0, le_refl 0, zero_le_one, ?_, ?_, ?_⟩
    · simp only [point_to_line_distance]
      rw [if_pos h]
      norm_num
    · norm_num
    · rcases h with ⟨h1, h2⟩
      rw [← h1, ← h2]
      norm_num
  · have hA : 0 < (e.1 - s.1) * (e.1 - s.1) + (e.2 - s.2) * (e.2 - s.2) := by
      rcases not_and_or.mp h with h1 | h1
      · have hne : e.1 - s.1 ≠ 0 := sub_ne_zero.mpr (fun hh => h1 hh.symm)
        nlinarith [mul_self_pos.mpr hne, mul_self_nonneg (e.2 - s.2)]
      · have hne : e.2 - s.2 ≠ 0 := sub_ne_zero.mpr (fun hh => h1 hh.symm)
        nlinarith [mul_self_pos.mpr hne, mul_self_nonneg (e.1 - s.1)]
    have hq := clamp_quadratic (p.1 - s.1) (p.2 - s.2) (e.1 - s.1) (e.2 - s.2) hA
    refine ⟨max 0 (min 1 (((p.1 - s.1) * (e.1 - s.1) + (p.2 - s.2) * (e.2 - s.2)) /
        ((e.1 - s.1) * (e.1 - s.1) + (e.2 - s.2) * (e.2 - s.2)))),
      le_max_left _ _, max_le zero_le_one (min_le_left _ _), ?_, ?_, ?_⟩
    · simp only [point_to_line_distance]
      rw [if_neg h]
    · nlinarith [hq.1]
    · nlinarith [hq.2]

/-! ## Characterisation of the camera matcher -/

open scoped Classical in
/-- One unfolding step of the collector, phrased through `match_of`: an
entry either raises the `KeyError`, contributes its match, or is skipped. -/
theorem collect_nearby_cameras_cons (coords : List (ℝ × ℝ)) (cam_id : String)
    (cam_data : CamRecord) (rest : List (String × CamRecord)) :
    collect_nearby_cameras coords ((cam_id, cam_data) :: rest) =
      if cam_data.status = some "success" ∧ cam_data.camera = none then
        .error "KeyError: camera"
      else
        match match_of coords cam_id cam_data with
        | some m => (collect_nearby_cameras coords rest).map (fun tail => m :: tail)
        | none => collect_nearby_cameras coords rest := by
  obtain ⟨st, cam, cls⟩ := cam_data
  by_cases hst : st = some "success"
  · subst hst
    rcases cam with - | ⟨latO, lonO, dispO⟩
    · simp [collect_nearby_cameras]
    · rcases latO with - | la <;> rcases lonO with - | lo
      · simp [collect_nearby_cameras, match_of]
      · simp [collect_nearby_cameras, match_of]
      · simp [collect_nearby_cameras, match_of]
      · rcases hmin : min_segment_distance coords lo la with - | dmin
        · simp [collect_nearby_cameras, match_of, hmin]
        · by_cases hbuf : dmin ≤ route_buffer_km
          · simp [collect_nearby_cameras, match_of, hmin, hbuf]
          · simp [collect_nearby_cameras, match_of, hmin, hbuf]
  · simp [collect_nearby_cameras, match_of, hst]

/-- A normal run of the collector produces exactly the `filterMap` of
`match_of` over the dataset, in dataset order. -/
theorem collect_nearby_cameras_eq_filterMap (coords : List (ℝ × ℝ)) :
    ∀ (cams : List (String × CamRecord)) (l : List CamMatch),
      collect_nearby_cameras coords cams = .ok l →
      l = cams.filterMap (fun e => match_of coords e.1 e.2) := by
  intro cams
  induction cams with
  | nil =>
    intro l hl
    simpa [collect_nearby_cameras] using (Except.ok.inj hl).symm
  | cons e rest ih =>
    intro l hl
    obtain ⟨cam_id, cam_data⟩ := e
    rw [collect_nearby_cameras_cons] at hl
    by_cases hkey : cam_data.status = some "success" ∧ cam_data.camera = none
    · rw [if_pos hkey] at hl
      exact absurd hl (by simp)
    · rw [if_neg hkey] at hl
      rcases hm : match_of coords cam_id cam_data with - | m
      · rw [hm] at hl
        simp [List.filterMap_cons, hm, ih l hl]
      · rw [hm] at hl
        rcases hrest : collect_nearby_cameras coords rest with err | l'
        · rw [hrest] at hl
          exact absurd hl (by simp [Except.map])
        · rw [hrest] at hl
          have hl' : l = m :: l' := by
            have := hl.symm
            simp only [Except.map] at this
            exact Except.ok.inj this
          simp [hl', List.filterMap_cons, hm, ih l' hrest]

/-- The collector returns normally on every dataset whose `success` entries
carry a camera block. -/
theorem collect_nearby_cameras_total (coords : List (ℝ × ℝ)) :
    ∀ (cams : List (String × CamRecord)),
      (∀ e ∈ cams, e.2.status = some "success" → e.2.camera ≠ none) →
      ∃ l, collect_nearby_cameras coords cams = .ok l := by
  intro cams
  induction cams with
  | nil => exact fun _ => ⟨[], rfl⟩
  | cons e rest ih =>
    intro hwf
    obtain ⟨cam_id, cam_data⟩ := e
    obtain ⟨l', hl'⟩ := ih (fun x hx => hwf x (List.mem_cons_of_mem _ hx))
    have hkey : ¬(cam_data.status = some "success" ∧ cam_data.camera = none) := by
      rintro ⟨h1, h2⟩
      exact hwf (cam_id, cam_data) (List.mem_cons_self _ _) h1 h2
    rw [collect_nearby_cameras_cons, if_neg hkey]
    rcases hm : match_of coords cam_id cam_data with - | m
    · exact ⟨l', hl'⟩
    · exact ⟨m :: l', by rw [hl']; rfl⟩

/-- In an association list with `Nodup` keys, a key determines its value. -/
theorem assoc_nodup_unique {α β : Type} :
    ∀ (l : List (α × β)), (l.map Prod.fst).Nodup →
      ∀ {k : α} {a b : β}, (k, a) ∈ l → (k, b) ∈ l → a = b := by
  intro l
  induction l with
  | nil => intro _ k a b ha; simp at ha
  | cons e rest ih =>
    intro hnd k a b ha hb
    have hnd' := hnd
    rw [List.map_cons, List.nodup_cons] at hnd'
    rcases List.mem_cons.mp ha with ha1 | ha1 <;> rcases List.mem_cons.mp hb with hb1 | hb1
    · exact congrArg Prod.snd (ha1.trans hb1.symm)
    · exfalso
      apply hnd'.1
      have he : e.1 = k := by rw [← ha1]
      rw [he]
      exact List.mem_map_of_mem Prod.fst hb1
    · exfalso
      apply hnd'.1
      have he : e.1 = k := by rw [← hb1]
      rw [he]
      exact List.mem_map_of_mem Prod.fst ha1
    · exact ih hnd'.2 ha1 hb1

/-- A successful matcher run is a sorted-by-`byDistance` rearrangement of a
successful collector run. -/
theorem find_cameras_ok_elim (coords : List (ℝ × ℝ))
    (cams : List (String × CamRecord)) (out : List CamMatch)
    (h : find_cameras_near_route coords cams = .ok out) :
    ∃ l, collect_nearby_cameras coords cams = .ok l ∧ out = l.mergeSort byDistance := by
  unfold find_cameras_near_route at h
  rcases hc : collect_nearby_cameras coords cams with e | l
  · rw [hc] at h
    exact absurd h (by simp [Except.map])
  · rw [hc] at h
    exact ⟨l, rfl, (Except.ok.inj h).symm⟩

theorem byDistance_trans (a b c : CamMatch) :
    byDistance a b → byDistance b c → byDistance a c := by
  simp only [byDistance, decide_eq_true_eq]
  exact le_trans

theorem byDistance_total (a b : CamMatch) : byDistance a b || byDistance b a := by
  simp only [byDistance, Bool.or_eq_true, decide_eq_true_eq]
  exact le_total _ _

/-- Inversion of `match_of` on a produced match. -/
theorem match_of_some_elim (coords : List (ℝ × ℝ)) (cid : String)
    (rec' : CamRecord) (m : CamMatch) (h : match_of coords cid rec' = some m) :
    rec'.status = some "success" ∧ m.id = cid ∧
      ∃ info, rec'.camera = some info ∧
        info.latitude = some m.latitude ∧ info.longitude = some m.longitude ∧
        ∃ dmin, min_segment_distance coords m.longitude m.latitude = some dmin ∧
          dmin ≤ route_buffer_km ∧ m.distance_km = roundTo 3 dmin := by
  obtain ⟨st, cam, cls⟩ := rec'
  by_cases hst : st = some "success"
  · subst hst
    rcases cam with - | ⟨latO, lonO, dispO⟩
    · exact absurd h (by simp [match_of])
    · rcases latO with - | la <;> rcases lonO with - | lo
      · exact absurd h (by simp [match_of])
      · exact absurd h (by simp [match_of])
      · exact absurd h (by simp [match_of])
      · rcases hmin : min_segment_distance coords lo la with - | dmin
        · exact absurd h (by simp [match_of, hmin])
        · by_cases hbuf : dmin ≤ route_buffer_km
          · rw [match_of, if_neg (by simp)] at h
            simp only [hmin, if_pos hbuf, Option.some.injEq] at h
            subst h
            exact ⟨rfl, rfl, ⟨some la, some lo, dispO⟩, rfl, rfl, rfl,
              dmin, hmin, hbuf, rfl⟩
          · exact absurd h (by simp [match_of, hmin, hbuf])
  · exact absurd h (by simp [match_of, hst])

/-- Introduction rule for `match_of`: a qualifying entry produces its
match. -/
theorem match_of_some_intro (coords : List (ℝ × ℝ)) (cid : String)
    (rec' : CamRecord) (info : CameraInfo) (lat lon dmin : ℝ)
    (hst : rec'.status = some "success") (hcam : rec'.camera = some info)
    (hlat : info.latitude = some lat) (hlon : info.longitude = some lon)
    (hmin : min_segment_distance coords lon lat = some dmin)
    (hbuf : dmin ≤ route_buffer_km) :
    match_of coords cid rec' =
      some
        { id := cid
          name := info.display_name.getD "Unknown"
          latitude := lat
          longitude := lon
          distance_km := roundTo 3 dmin
          classification := rec'.classification
          safety_level := record_safety_level rec' } := by
  obtain ⟨st, cam, cls⟩ := rec'
  simp only at hst hcam
  subst hst
  subst hcam
  obtain ⟨latO, lonO, dispO⟩ := info
  simp only at hlat hlon
  subst hlat
  subst hlon
  rw [match_of, if_neg (by simp)]
  simp [hmin, hbuf]

/-! ## C5: which cameras the matcher returns -/

/-- C5 (confirmed): on a geometry with at least two points and a dataset
with distinct camera ids, a normal run of `find_cameras_near_route` returns
(1) only cameras backed by a dataset entry with status `success`, present
latitude/longitude, and minimum point-to-segment distance over the
consecutive geometry segments at most 0.5 km (the reported `distance_km`
being that minimum rounded to 3 decimals); (2) a match for every such
qualifying entry; (3) sorted ascending by the reported distance; and (4) no
match for any entry whose status is not `success`, wherever it lies. -/
theorem find_cameras_near_route_spec (coords : List (ℝ × ℝ))
    (cams : List (String × CamRecord)) (out : List CamMatch)
    (hok : find_cameras_near_route coords cams = .ok out)
    (_hlen : 2 ≤ coords.length)
    (hkeys : (cams.map Prod.fst).Nodup) :
    (∀ m ∈ out, ∃ rec' info, (m.id, rec') ∈ cams ∧
      rec'.status = some "success" ∧ rec'.camera = some info ∧
      info.latitude = some m.latitude ∧ info.longitude = some m.longitude ∧
      ∃ dmin, min_segment_distance coords m.longitude m.latitude = some dmin ∧
        dmin ≤ (0.5 : ℝ) ∧ m.distance_km = roundTo 3 dmin) ∧
    (∀ cid rec' info lat lon dmin, (cid, rec') ∈ cams →
      rec'.status = some "success" → rec'.camera = some info →
      info.latitude = some lat → info.longitude = some lon →
      min_segment_distance coords lon lat = some dmin → dmin ≤ (0.5 : ℝ) →
      ∃ m ∈ out, m.id = cid ∧ m.latitude = lat ∧ m.longitude = lon ∧
        m.distance_km = roundTo 3 dmin) ∧
    out.Pairwise (fun a b => a.distance_km ≤ b.distance_km) ∧
    (∀ cid rec', (cid, rec') ∈ cams → rec'.status ≠ some "success" →
      ∀ m ∈ out, m.id ≠ cid) := by
  obtain ⟨l, hcol, hout⟩ := find_cameras_ok_elim coords cams out hok
  have hfm := collect_nearby_cameras_eq_filterMap coords cams l hcol
  have hmem : ∀ m : CamMatch, m ∈ out ↔ m ∈ l := by
    intro m
    rw [hout]
    exact List.mem_mergeSort
  have hsound : ∀ m ∈ out, ∃ rec' info, (m.id, rec') ∈ cams ∧
      rec'.status = some "success" ∧ rec'.camera = some info ∧
      info.latitude = some m.latitude ∧ info.longitude = some m.longitude ∧
      ∃ dmin, min_segment_distance coords m.longitude m.latitude = some dmin ∧
        dmin ≤ (0.5 : ℝ) ∧ m.distance_km = roundTo 3 dmin := by
    intro m hm
    rw [hmem m, hfm, List.mem_filterMap] at hm
    obtain ⟨e, he, hme⟩ := hm
    obtain ⟨hst, hid, info, hcam, hlat, hlon, dmin, hmin, hbuf, hdist⟩ :=
      match_of_some_elim coords e.1 e.2 m hme
    refine ⟨e.2, info, ?_, hst, hcam, hlat, hlon, dmin, hmin, hbuf, hdist⟩
    rw [hid, Prod.mk.eta]
    exact he
  refine ⟨hsound, ?_, ?_, ?_⟩
  · intro cid rec' info lat lon dmin hmem' hst hcam hlat hlon hmin hbuf
    have hsome := match_of_some_intro coords cid rec' info lat lon dmin
      hst hcam hlat hlon hmin hbuf
    refine ⟨{ id := cid, name := info.display_name.getD "Unknown", latitude := lat, longitude := lon, distance_km := roundTo 3 dmin, classification := rec'.classification, safety_level := record_safety_level rec' }, ?_, rfl, rfl, rfl, rfl⟩
    rw [hmem, hfm]
    exact List.mem_filterMap.mpr ⟨(cid, rec'), hmem', hsome⟩
  · rw [hout]
    have hs := List.sorted_mergeSort byDistance_trans byDistance_total l
    exact hs.imp (fun h => by simpa [byDistance] using h)
  · intro cid rec' hmem' hst m hm hmid
    obtain ⟨rec'', _, hmem'', hst'', -⟩ := hsound m hm
    rw [hmid] at hmem''
    exact hst (assoc_nodup_unique cams hkeys hmem'' hmem' ▸ hst'')

/-- Witness for `find_cameras_near_route_spec`: a two-point geometry and the
empty dataset. -/
theorem find_cameras_near_route_spec_witness :
    ∃ out, find_cameras_near_route [(0, 0), (1, 1)] [] = .ok out ∧
      out.Pairwise (fun a b => a.distance_km ≤ b.distance_km) := by
  have hok : find_cameras_near_route [(0, 0), (1, 1)] [] = .ok [] := by
    simp [find_cameras_near_route, collect_nearby_cameras, Except.map]
  exact ⟨[], hok,
    (find_cameras_near_route_spec [(0, 0), (1, 1)] [] [] hok (by norm_num)
      (by simp)).2.2.1⟩

/-! ## C7: tolerance of heterogeneous records -/

/-- C7 (corrected), counterexample: a dataset entry whose `status` is
`success` but whose `camera` block is missing makes
`find_cameras_near_route` raise `KeyError` (the source evaluates
`cam_data['camera']` after the status check), so the matcher does *not*
return normally on every partially-populated record, contrary to the
claim. -/
theorem find_cameras_keyerror_cex :
    find_cameras_near_route []
        [("cam1", { status := some "success", camera := none, classification := none })] =
      .error "KeyError: camera" := by
  rfl

/-- C7 (amended): the matcher tolerates every heterogeneous record except
one shape — entries with a missing or non-`success` status, or with a camera
block lacking coordinates, or lacking a classification, contribute no
evidence and the matcher returns normally; but an entry whose status is
`success` and whose camera block is absent raises a `KeyError`. -/
theorem find_cameras_total_amended (coords : List (ℝ × ℝ))
    (cams : List (String × CamRecord))
    (hwf : ∀ e ∈ cams, e.2.status = some "success" → e.2.camera ≠ none) :
    ∃ out, find_cameras_near_route coords cams = .ok out := by
  obtain ⟨l, hl⟩ := collect_nearby_cameras_total coords cams hwf
  exact ⟨l.mergeSort byDistance, by rw [find_cameras_near_route, hl]; rfl⟩

/-- Witness for `find_cameras_total_amended`: a dataset mixing a record with
no status, a failed record, and a successful record whose camera block lacks
coordinates. -/
theorem find_cameras_total_amended_witness :
    ∃ out, find_cameras_near_route [(0, 0), (1, 1)]
        [("a", { status := none, camera := none, classification := none }),
         ("b", { status := some "failed", camera := none, classification := none }),
         ("c", { status := some "success",
                 camera := some { latitude := none, longitude := none,
                                  display_name := some "X" },
                 classification := none })] = .ok out := by
  refine find_cameras_total_amended [(0, 0), (1, 1)] _ ?_
  intro e he
  simp only [List.mem_cons, List.not_mem_nil, or_false] at he
  rcases he with rfl | rfl | rfl
  · intro h
    simp at h
  · intro h
    simp at h
  · intro _ h
    simp at h

/-! ## C10: degenerate polylines -/

/-- With fewer than two geometry points there are no segments, so the
minimum segment distance never exists. -/
theorem min_segment_distance_degenerate (coords : List (ℝ × ℝ))
    (hlen : coords.length < 2) (lon lat : ℝ) :
    min_segment_distance coords lon lat = none := by
  rcases coords with - | ⟨c, - | ⟨c2, cs⟩⟩
  · rfl
  · rfl
  · simp at hlen
    omega

/-- C10 (corrected), counterexample: the claim's "for every camera dataset"
fails — even on a degenerate one-point polyline the matcher raises
`KeyError` for a dataset entry with status `success` and no camera block,
instead of returning the empty list. -/
theorem degenerate_route_error_cex :
    find_cameras_near_route [(0, 0)]
        [("cam2", { status := some "success", camera := none, classification := none })] =
      .error "KeyError: camera" := by
  rfl

/-- C10 (amended): on every dataset whose `success` entries carry a camera
block, a route geometry with fewer than two coordinates yields the empty
match list without error: no camera matches a degenerate polyline, since
there is no segment to measure against (the `min_distance` accumulator stays
infinite). -/
theorem degenerate_route_amended (coords : List (ℝ × ℝ))
    (cams : List (String × CamRecord)) (hlen : coords.length < 2)
    (hwf : ∀ e ∈ cams, e.2.status = some "success" → e.2.camera ≠ none) :
    find_cameras_near_route coords cams = .ok [] := by
  have hcol : collect_nearby_cameras coords cams = .ok [] := by
    induction cams with
    | nil => rfl
    | cons e rest ih =>
      obtain ⟨cam_id, cam_data⟩ := e
      have hkey : ¬(cam_data.status = some "success" ∧ cam_data.camera = none) := by
        rintro ⟨h1, h2⟩
        exact hwf (cam_id, cam_data) (List.mem_cons_self _ _) h1 h2
      rw [collect_nearby_cameras_cons, if_neg hkey]
      have hnone : match_of coords cam_id cam_data = none := by
        obtain ⟨st, cam, cls⟩ := cam_data
        by_cases hst : st = some "success"
        · subst hst
          rcases cam with - | ⟨latO, lonO, dispO⟩
          · simp [match_of]
          · rcases latO with - | la <;> rcases lonO with - | lo
            · simp [match_of]
            · simp [match_of]
            · simp [match_of]
            · simp [match_of, min_segment_distance_degenerate coords hlen lo la]
        · simp [match_of, hst]
      rw [hnone]
      exact ih (fun x hx => hwf x (List.mem_cons_of_mem _ hx))
  rw [find_cameras_near_route, hcol]
  simp [Except.map]

/-- Witness for `degenerate_route_amended`: a one-point geometry against a
fully-populated successful camera record. -/
theorem degenerate_route_amended_witness :
    find_cameras_near_route [(0, 0)]
        [("c", { status := some "success",
                 camera := some { latitude := some 40, longitude := some (-111),
                                  display_name := some "Cam" },
                 classification := none })] = .ok [] := by
  refine degenerate_route_amended [(0, 0)] _ (by norm_num) ?_
  intro e he
  simp only [List.mem_cons, List.not_mem_nil, or_false] at he
  rcases he with rfl
  intro _ h
  simp at h

/-! ## C4: ranking of analyzed routes -/

theorem byScoreDesc_trans (a b c : AnalyzedRoute) :
    byScoreDesc a b → byScoreDesc b c → byScoreDesc a c := by
  simp only [byScoreDesc, decide_eq_true_eq]
  intro h1 h2
  exact le_trans h2 h1

theorem byScoreDesc_total (a b : AnalyzedRoute) : byScoreDesc a b || byScoreDesc b a := by
  simp only [byScoreDesc, Bool.or_eq_true, decide_eq_true_eq]
  exact (le_total _ _).symm

/-- Stability of `mergeSort` for a comparison that only inspects `key`, on
input lists strictly increasing in `pos`: in the sorted output, key-ties
stay in `pos` order. -/
theorem mergeSort_stable_pairwise {α : Type} (le : α → α → Bool)
    (key : α → ℤ) (pos : α → ℕ)
    (hle : ∀ a b, le a b = true ↔ key b ≤ key a) :
    ∀ l : List α, l.Pairwise (fun x y => pos x < pos y) →
      (l.mergeSort le).Pairwise (fun x y => key x = key y → pos x < pos y) := by
  have htrans : ∀ (a b c : α), le a b → le b c → le a c := by
    intro a b c h1 h2
    rw [hle] at h1 h2 ⊢
    exact le_trans h2 h1
  have htotal : ∀ (a b : α), le a b || le b a := by
    intro a b
    rcases le_total (key a) (key b) with h | h
    · simp [hle, h]
    · simp [hle, h]
  intro l
  induction l with
  | nil => intro _; simp
  | cons a l ih =>
    intro hp
    rw [List.pairwise_cons] at hp
    obtain ⟨l₁, l₂, h1, h2, h3⟩ := List.mergeSort_cons htrans htotal a l
    rw [h1]
    have ihl := ih hp.2
    rw [h2, List.pairwise_append] at ihl
    obtain ⟨P1, P2, hacross⟩ := ihl
    have hmeml : ∀ y, y ∈ l₁ ∨ y ∈ l₂ → y ∈ l := by
      intro y hy
      have : y ∈ l₁ ++ l₂ := List.mem_append.mpr hy
      rw [← h2] at this
      exact List.mem_mergeSort.mp this
    rw [List.pairwise_append]
    refine ⟨P1, ?_, ?_⟩
    · rw [List.pairwise_cons]
      exact ⟨fun y hy _ => hp.1 y (hmeml y (Or.inr hy)), P2⟩
    · intro x hx y hy
      rcases List.mem_cons.mp hy with rfl | hy2
      · intro hk
        have hxle := h3 x hx
        rw [Bool.not_eq_true', ← Bool.not_eq_true] at hxle
        rw [hle] at hxle
        push_neg at hxle
        exact absurd hk (by intro hk'; rw [hk'] at hxle; exact lt_irrefl _ hxle)
      · exact hacross x hx y hy2

/-- Inversion for the route analyzer: on success, every produced record was
built with `is_recommended = False`, indices count up from the seed, and the
records appear in strictly increasing index order. -/
theorem analyze_routes_ok (cameras : List (String × CamRecord)) :
    ∀ (i : ℕ) (rs : List OsrmRoute) (out : List AnalyzedRoute),
      analyze_routes cameras i rs = .ok out →
      (∀ x ∈ out, i ≤ x.route_index ∧ x.is_recommended = false) ∧
        out.Pairwise (fun a b => a.route_index < b.route_index) := by
  intro i rs
  induction rs generalizing i with
  | nil =>
    intro out h
    have : out = [] := (Except.ok.inj h).symm
    subst this
    simp
  | cons r rest ih =>
    intro out h
    rw [analyze_routes] at h
    rcases hn : find_cameras_near_route r.geometry cameras with e | nearby
    · rw [hn] at h
      exact absurd h (by simp)
    · rw [hn] at h
      rcases ht : analyze_routes cameras (i + 1) rest with e | tail
      · rw [ht] at h
        exact absurd h (by simp)
      · rw [ht] at h
        have hout := (Except.ok.inj h).symm
        subst hout
        obtain ⟨htail, hptail⟩ := ih (i + 1) tail ht
        constructor
        · intro x hx
          rcases List.mem_cons.mp hx with rfl | hx2
          · exact ⟨le_refl i, rfl⟩
          · exact ⟨le_trans (Nat.le_succ i) (htail x hx2).1, (htail x hx2).2⟩
        · rw [List.pairwise_cons]
          exact ⟨fun y hy => lt_of_lt_of_le (Nat.lt_succ_self i) (htail y hy).1, hptail⟩

/-- C4 (confirmed): every successful plan with a non-empty route list has
its routes sorted by safety score descending with score-ties in original
backend order (strictly increasing `route_index`), its first route is the
unique one marked recommended, the `recommended_route` field is that first
route, and the first route's score is maximal. -/
theorem plan_route_ranking (results_file_exists : Bool)
    (cameras : List (String × CamRecord)) (outcomes : List ServerOutcome)
    (origin destination : ℝ × ℝ) (alternatives : ℕ) (p : Plan)
    (hok : plan_route results_file_exists cameras outcomes origin destination
      alternatives = .ok p)
    (hne : p.routes ≠ []) :
    ∃ first rest, p.routes = first :: rest ∧
      first.is_recommended = true ∧
      (∀ x ∈ rest, x.is_recommended = false) ∧
      p.recommended_route = some first ∧
      (∀ x ∈ p.routes, x.safety.score ≤ first.safety.score) ∧
      p.routes.Pairwise (fun a b => b.safety.score ≤ a.safety.score ∧
        (a.safety.score = b.safety.score → a.route_index < b.route_index)) := by
  rw [plan_route] at hok
  have hcode := (get_route_total_amended outcomes origin destination alternatives).1
  rcases hfe : results_file_exists with - | -
  · rw [hfe] at hok
    exact absurd hok (by simp)
  · rw [hfe] at hok
    rw [if_neg (by simp)] at hok
    rw [if_neg (fun hcon => hcon hcode)] at hok
    rcases han : analyze_routes cameras 0
        (get_route outcomes origin destination alternatives).routes with e | analyzed
    · rw [han] at hok
      exact absurd hok (by simp [Except.map])
    · rw [han] at hok
      simp only [Except.map] at hok
      have hp : build_plan origin destination analyzed = p := Except.ok.inj hok
      obtain ⟨hflags, hpos⟩ := analyze_routes_ok cameras 0 _ analyzed han
      have hsorted := List.sorted_mergeSort
        byScoreDesc_trans byScoreDesc_total analyzed
      have hstable := mergeSort_stable_pairwise byScoreDesc
        (fun x => x.safety.score) (fun x => x.route_index)
        (fun a b => by simp [byScoreDesc]) analyzed hpos
      have hperm := List.mergeSort_perm analyzed byScoreDesc
      rcases hs : analyzed.mergeSort byScoreDesc with - | ⟨first, rest⟩
      · exfalso
        apply hne
        rw [← hp]
        simp [build_plan, hs, mark_recommended]
      · rw [hs] at hsorted hstable hperm
        have hroutes : p.routes = { first with is_recommended := true } :: rest := by
          rw [← hp]
          simp [build_plan, hs, mark_recommended]
        have hrec : p.recommended_route = some { first with is_recommended := true } := by
          rw [← hp]
          simp [build_plan, hs, mark_recommended]
        rw [hroutes]
        refine ⟨{ first with is_recommended := true }, rest, rfl, rfl, ?_, hrec, ?_, ?_⟩
        · intro x hx
          have : x ∈ analyzed := hperm.mem_iff.mp (List.mem_cons_of_mem _ hx)
          exact (hflags x this).2
        · intro x hx
          rcases List.mem_cons.mp hx with rfl | hx2
          · exact le_refl _
          · have := List.rel_of_pairwise_cons hsorted hx2
            simpa [byScoreDesc] using this
        · have hcomb := hsorted.and hstable
          rw [List.pairwise_cons] at hcomb ⊢
          refine ⟨?_, ?_⟩
          · intro y hy
            have hy' := hcomb.1 y hy
            exact ⟨by simpa [byScoreDesc] using hy'.1, hy'.2⟩
          · exact hcomb.2.imp (fun hab => ⟨by simpa [byScoreDesc] using hab.1, hab.2⟩)

/-- Witness for `plan_route_ranking`: a single backend route over an empty
camera dataset produces a one-route plan satisfying the ranking
invariants. -/
theorem plan_route_ranking_witness :
    ∃ p, plan_route true []
        [ServerOutcome.response ⟨some "Ok", [⟨0, 0, [], []⟩], []⟩] (0, 0) (1, 1) 3 =
        .ok p ∧
      p.routes ≠ [] ∧
      ∃ first rest, p.routes = first :: rest ∧
        first.is_recommended = true ∧
        (∀ x ∈ rest, x.is_recommended = false) ∧
        p.recommended_route = some first ∧
        (∀ x ∈ p.routes, x.safety.score ≤ first.safety.score) ∧
        p.routes.Pairwise (fun a b => b.safety.score ≤ a.safety.score ∧
          (a.safety.score = b.safety.score → a.route_index < b.route_index)) := by
  obtain ⟨a, han⟩ : ∃ a, analyze_routes ([] : List (String × CamRecord)) 0
      [(⟨0, 0, [], []⟩ : OsrmRoute)] = .ok [a] := ⟨_, rfl⟩
  have hgr : get_route [ServerOutcome.response ⟨some "Ok", [⟨0, 0, [], []⟩], []⟩]
      (0, 0) (1, 1) 3 = ⟨some "Ok", [⟨0, 0, [], []⟩], []⟩ := rfl
  have hok : plan_route true []
      [ServerOutcome.response ⟨some "Ok", [⟨0, 0, [], []⟩], []⟩] (0, 0) (1, 1) 3 =
      .ok (build_plan (0, 0) (1, 1) [a]) := by
    rw [plan_route, if_neg (by simp), if_neg (fun hcon => hcon (by rw [hgr]))]
    rw [hgr]
    simp only []
    rw [han]
    rfl
  have hne' : (build_plan (0, 0) (1, 1) [a]).routes ≠ [] := by
    simp [build_plan, mark_recommended]
  exact ⟨build_plan (0, 0) (1, 1) [a], hok, hne',
    plan_route_ranking true [] _ (0, 0) (1, 1) 3 _ hok hne'⟩

end UtahRoads
